import Mathlib

/-!
Shallow embedding of the FitForge debugging scripts, centred on the
`EnhancedWSLChromeDebugger` class of `wsl-chrome-mcp.py`.

Python values are embedded as follows: machine-level `datetime` values become
abstract `Nat` timestamps, Python floats that are produced by exact integer
arithmetic become `Rat`, Python `None` becomes `Option`, Python dicts with a
fixed key set become structures, and Python exceptions become `Except` or
`Option` results.  Every definition is translated statement by statement from
the source file; line numbers in doc comments refer to `wsl-chrome-mcp.py`.
-/

/-- Substring test on lists of characters, the embedding of the Python
operator `pat in hay` for strings (true when `pat` occurs contiguously). -/
def listContainsSub (pat : List Char) : List Char → Bool
  | [] => pat.isPrefixOf []
  | c :: t => pat.isPrefixOf (c :: t) || listContainsSub pat t

/-- Substring test on strings: Python `pat in hay`. -/
def strContainsSub (hay pat : String) : Bool :=
  listContainsSub pat.toList hay.toList

/-- Python `str.lower()`, embedded character-wise (the strings compared in the
source are ASCII). -/
def strToLower (s : String) : String := ⟨s.data.map Char.toLower⟩

/-- Association-list lookup, the embedding of Python `d[k]` / `k in d` for the
string-keyed dicts used by the debugger (`self.sessions`, metric dicts). -/
def dictGet {β : Type} (l : List (String × β)) (k : String) : Option β :=
  match l with
  | [] => none
  | (k0, v) :: t => if k0 = k then some v else dictGet t k

/-- Association-list update-or-insert, the embedding of Python `d[k] = v`. -/
def dictSet {β : Type} (l : List (String × β)) (k : String) (v : β) :
    List (String × β) :=
  if (dictGet l k).isSome then
    l.map (fun p => if p.1 = k then (k, v) else p)
  else
    l ++ [(k, v)]

/-- `DebugEvent` dataclass (lines 21-27).  The `data` dict payload is embedded
as a string-keyed association list of strings. -/
structure DebugEvent where
  timestamp : Nat
  event_type : String
  data : List (String × String)
  level : String := "info"
  category : String := "general"
deriving DecidableEq, Repr

/-- `NetworkRequest` dataclass (lines 29-38). -/
structure NetworkRequest where
  url : String
  method : String
  status : Option Int := none
  timing : Option Rat := none
  headers : Option (List (String × String)) := none
  response_size : Option Nat := none
  failed : Bool := false
  error_message : Option String := none
deriving DecidableEq, Repr

/-- `UserFlowStep` dataclass (lines 40-49). -/
structure UserFlowStep where
  step_name : String
  action : String
  selector : Option String := none
  expected_result : Option String := none
  screenshot_path : Option String := none
  success : Bool := true
  error_message : Option String := none
  timing : Option Rat := none
deriving DecidableEq, Repr

/-- One console-log record as built by `_collect_console_logs` /
`get_page_errors` (lines 557-587): a dict with keys `level`, `message` and
(for errors) `type`. -/
structure ConsoleLog where
  level : String
  message : String
  ctype : String := ""
deriving DecidableEq, Repr

/-- The last `m` elements of a list, the embedding of the Python slice
`xs[-m:]` for `m ≥ 1` (for `xs.length ≤ m` it is all of `xs`). -/
def lastN {α : Type} (m : Nat) (xs : List α) : List α :=
  xs.drop (xs.length - m)

/-- The event-list transformation performed by `_log_event` on
`session.events` (lines 1016-1020): append the new event, then, if the list
has grown beyond `max_events`, keep only `events[-max_events:]`.  The inner
branch records the Python slicing quirk that `xs[-0:]` is all of `xs`. -/
def logEventList (maxE : Nat) (es : List DebugEvent) (e : DebugEvent) :
    List DebugEvent :=
  let es2 := es ++ [e]
  if maxE < es2.length then
    if maxE = 0 then es2 else es2.drop (es2.length - maxE)
  else
    es2

theorem logEventList_eq_lastN (maxE : Nat) (hm : 0 < maxE)
    (es : List DebugEvent) (e : DebugEvent) :
    logEventList maxE es e = lastN maxE (es ++ [e]) := by
  unfold logEventList lastN
  simp only [List.length_append, List.length_singleton]
  by_cases h : maxE < es.length + 1
  · simp [h, Nat.ne_of_gt hm]
  · have h0 : es.length + 1 - maxE = 0 := by omega
    simp [h, h0]

theorem lastN_length_le {α : Type} (m : Nat) (xs : List α) :
    (lastN m xs).length ≤ m := by
  unfold lastN
  simp only [List.length_drop]
  omega

theorem lastN_lastN_append {α : Type} (m : Nat) (X Y : List α) :
    lastN m (lastN m X ++ Y) = lastN m (X ++ Y) := by
  unfold lastN
  rcases le_or_lt X.length m with h | h
  · have h0 : X.length - m = 0 := by omega
    simp [h0]
  · have hk : X.length - m ≤ X.length := Nat.sub_le _ _
    rw [← List.drop_append_of_le_length hk, List.drop_drop]
    congr 1
    simp only [List.length_drop, List.length_append]
    omega

/-- C1: for every session and every sequence of calls to `_log_event`, the
events list never exceeds the cap `max_events` (provided the cap is positive,
as the hard-coded default 1000 is, and the initial list is within the cap),
and the retained events are exactly the most recent `max_events` entries of
the full append sequence, oldest dropped first and order preserved. -/
theorem log_event_cap_invariant (maxE : Nat) (hm : 0 < maxE)
    (init : List DebugEvent) (hinit : init.length ≤ maxE)
    (evs : List DebugEvent) :
    (evs.foldl (logEventList maxE) init).length ≤ maxE ∧
      evs.foldl (logEventList maxE) init = lastN maxE (init ++ evs) := by
  induction evs generalizing init with
  | nil =>
    constructor
    · simpa using hinit
    · unfold lastN
      have h0 : init.length - maxE = 0 := by omega
      simp [h0]
  | cons e rest ih =>
    have hstep : logEventList maxE init e = lastN maxE (init ++ [e]) :=
      logEventList_eq_lastN maxE hm init e
    have hlen : (logEventList maxE init e).length ≤ maxE := by
      rw [hstep]; exact lastN_length_le _ _
    obtain ⟨ih1, ih2⟩ := ih (logEventList maxE init e) hlen
    refine ⟨by simpa using ih1, ?_⟩
    simp only [List.foldl_cons]
    rw [ih2, hstep, lastN_lastN_append]
    simp

/-- Witness for C1 at the default cap 1000 and at a tiny cap 2 exercising
eviction: three appended events at cap 2 retain exactly the last two. -/
theorem log_event_cap_invariant_witness :
    ([⟨1, "a", [], "info", "general"⟩, ⟨2, "b", [], "info", "general"⟩,
        ⟨3, "c", [], "info", "general"⟩] : List DebugEvent).foldl
        (logEventList 2) [] =
      [⟨2, "b", [], "info", "general"⟩, ⟨3, "c", [], "info", "general"⟩] := by
  have h := log_event_cap_invariant 2 (by decide) [] (by decide)
    [⟨1, "a", [], "info", "general"⟩, ⟨2, "b", [], "info", "general"⟩,
      ⟨3, "c", [], "info", "general"⟩]
  rw [h.2]
  decide

/-- Python truthy `or` on an optional string: `s or d` falls back to `d` when
`s` is `None` or the empty string. -/
def pyOrStr (s : Option String) (d : String) : String :=
  match s with
  | none => d
  | some m => if m = "" then d else m

/-- Rounding of a rational to the nearest integer with ties to even, the
behaviour of Python `round` on exactly representable values. -/
def pyRoundEven (x : Rat) : Int :=
  if x - ⌊x⌋ = 1 / 2 then (if ⌊x⌋ % 2 = 0 then ⌊x⌋ else ⌊x⌋ + 1) else round x

/-- Python `round(x, 1)` on values that binary floating point represents
exactly (all uses in the source apply it to quarter-integer means). -/
def pyRound1 (x : Rat) : Rat := (pyRoundEven (10 * x) : Rat) / 10

/-- Python `round(x, 2)`, same caveat as `pyRound1`. -/
def pyRound2 (x : Rat) : Rat := (pyRoundEven (100 * x) : Rat) / 100

/-- Result dict of `_analyze_technical` (lines 835-845). -/
structure TechAnalysis where
  score : Int
  console_errors : Nat
  session_errors : Nat
  react_errors : Nat
  api_errors : Nat
  failed_requests : Nat
  total_requests : Nat
  critical_issues : List String
  recommendations : List String
deriving DecidableEq, Repr

/-- Result dict of `_analyze_ux` (lines 877-887). -/
structure UXAnalysis where
  score : Int
  failed_user_flows : Nat
  successful_user_flows : Nat
  total_user_flows : Nat
  workout_flow_failures : Nat
  navigation_failures : Nat
  avg_interaction_time : Rat
  usability_issues : List String
  recommendations : List String
deriving DecidableEq, Repr

/-- Result dict of `_analyze_performance` (lines 899-912); the bottleneck
list keeps the Python `None` entries as `none`. -/
structure PerfAnalysis where
  score : Int
  page_load_time : Rat
  memory_usage : Rat
  performance_grade : String
  bottlenecks : List (Option String)
  recommendations : List String
deriving DecidableEq, Repr

/-- Result dict of `_analyze_data` (lines 919-929). -/
structure DataAnalysis where
  score : Int
  total_api_calls : Nat
  successful_api_calls : Nat
  api_success_rate : Rat
  data_issues : List (Option String)
  recommendations : List String
deriving DecidableEq, Repr

/-- The report dict built by `_generate_debug_report` (lines 941-959), with
the `summary` sub-dict and the four perspective entries inlined as fields. -/
structure Report where
  session_id : String
  url : String
  analysis_time : Nat
  duration_minutes : Rat
  overall_score : Rat
  health_grade : String
  total_events : Nat
  errors : Nat
  warnings : Nat
  screenshots_taken : Nat
  user_flows_tested : Nat
  technical : TechAnalysis
  ux : UXAnalysis
  performance : PerfAnalysis
  data : DataAnalysis
  critical_issues : List String
  recommendations : List String
  next_steps : List String
deriving DecidableEq, Repr

/-- `DebugSession` dataclass (lines 51-62); the empty `summary` dict is
`none`, a populated report is `some`. -/
structure DebugSession where
  session_id : String
  url : String
  start_time : Nat
  events : List DebugEvent := []
  network_requests : List NetworkRequest := []
  console_logs : List ConsoleLog := []
  performance_metrics : List (String × Rat) := []
  screenshots : List String := []
  user_flows : List UserFlowStep := []
  summary : Option Report := none
deriving DecidableEq, Repr

/-- `_analyze_technical` (lines 800-845). -/
def analyze_technical (session : DebugSession) : TechAnalysis :=
  let console_errors := session.console_logs.filter (fun l => l.level == "error")
  let failed_requests := session.network_requests.filter (fun r => r.failed)
  let session_errors :=
    console_errors.filter (fun l => strContainsSub (strToLower l.message) "session")
  let api_errors :=
    console_errors.filter (fun l => strContainsSub (strToLower l.message) "api")
  let react_errors := console_errors.filter (fun l => l.ctype == "react_error")
  let score : Int := 100
    - (if 0 < console_errors.length then 15 else 0)
    - (if 0 < failed_requests.length then 10 else 0)
    - (if 0 < session_errors.length then 25 else 0)
    - (if 0 < react_errors.length then 20 else 0)
  let critical_issues :=
    (if session_errors.isEmpty then [] else
      session_errors.map (fun e => "Session management error: " ++ e.message))
    ++ (if react_errors.isEmpty then [] else
      react_errors.map (fun e => "React component error: " ++ e.message))
    ++ (if api_errors.isEmpty then [] else
      api_errors.map (fun e => "API error: " ++ e.message))
  let recommendations :=
    (if session_errors.isEmpty then [] else
      ["URGENT: Fix session management - this blocks user workflows"])
    ++ (if react_errors.isEmpty then [] else
      ["Fix React component errors for better stability"])
    ++ (if console_errors.isEmpty then [] else
      ["Address JavaScript console errors"])
    ++ (if critical_issues.isEmpty then
      ["Technical implementation looks solid"] else [])
  { score := max score 0
    console_errors := console_errors.length
    session_errors := session_errors.length
    react_errors := react_errors.length
    api_errors := api_errors.length
    failed_requests := failed_requests.length
    total_requests := session.network_requests.length
    critical_issues := critical_issues
    recommendations := recommendations }

/-- The average-interaction-time expression of `_analyze_ux` (line 851):
`sum(flow.timing or 0) / max(len(user_flows), 1)`. -/
def avgInteractionTime (flows : List UserFlowStep) : Rat :=
  (flows.map (fun f => f.timing.getD 0)).sum / ((max flows.length 1 : Nat) : Rat)

/-- `_analyze_ux` (lines 847-887). -/
def analyze_ux (session : DebugSession) : UXAnalysis :=
  let failed_flows := session.user_flows.filter (fun f => !f.success)
  let successful_flows := session.user_flows.filter (fun f => f.success)
  let avg_interaction_time := avgInteractionTime session.user_flows
  let workout_flow_failures :=
    failed_flows.filter (fun f => strContainsSub (strToLower f.action) "workout")
  let navigation_failures :=
    failed_flows.filter (fun f => strContainsSub (strToLower f.action) "navigate")
  let score : Int := 100
    - (if 0 < failed_flows.length then (failed_flows.length : Int) * 15 else 0)
    - (if 0 < workout_flow_failures.length then 25 else 0)
    - (if 5 < avg_interaction_time then 10 else 0)
  let usability_issues := failed_flows.map (fun f =>
    "Failed: " ++ f.action ++ " - " ++ pyOrStr f.error_message "Unknown error")
  let recommendations :=
    (if workout_flow_failures.isEmpty then [] else
      ["CRITICAL: Fix workout flow - core functionality is broken"])
    ++ (if navigation_failures.isEmpty then [] else
      ["Fix navigation issues for better user experience"])
    ++ (if 3 < avg_interaction_time then
      ["Optimize interaction responsiveness"] else [])
    ++ (if failed_flows.length = 0 then
      ["User experience flows are working well"] else [])
  { score := max score 0
    failed_user_flows := failed_flows.length
    successful_user_flows := successful_flows.length
    total_user_flows := session.user_flows.length
    workout_flow_failures := workout_flow_failures.length
    navigation_failures := navigation_failures.length
    avg_interaction_time := pyRound2 avg_interaction_time
    usability_issues := usability_issues
    recommendations := recommendations }

/-- `_analyze_performance` (lines 889-912). -/
def analyze_performance (session : DebugSession) : PerfAnalysis :=
  let page_load := (dictGet session.performance_metrics "page_load_time").getD 0
  let memory := (dictGet session.performance_metrics "memory_usage").getD 0
  let score : Int := 90
    - (if 3000 < page_load then 20 else 0)
    - (if 100 < memory then 15 else 0)
  { score := max score 0
    page_load_time := page_load
    memory_usage := memory
    performance_grade := if 85 < score then "A" else if 70 < score then "B" else "C"
    bottlenecks :=
      [if 3000 < page_load then some "Slow page load time" else none,
       if 100 < memory then some "High memory usage" else none]
    recommendations :=
      if score < 80 then
        ["Optimize bundle size and loading", "Implement performance monitoring"]
      else ["Performance is within acceptable ranges"] }

/-- The success condition `req.status and 200 <= req.status < 300` of
`_analyze_data` (line 917), including the Python truthiness of a `None` or
zero status. -/
def apiStatusOk (st : Option Int) : Bool :=
  match st with
  | none => false
  | some s => if s = 0 then false else decide (200 ≤ s) && decide (s < 300)

/-- `_analyze_data` (lines 914-929). -/
def analyze_data (session : DebugSession) : DataAnalysis :=
  let api_requests :=
    session.network_requests.filter (fun r => strContainsSub r.url "/api/")
  let successful_apis := api_requests.filter (fun r => apiStatusOk r.status)
  { score := if successful_apis.length = api_requests.length then 95 else 75
    total_api_calls := api_requests.length
    successful_api_calls := successful_apis.length
    api_success_rate :=
      ((successful_apis.length : Rat) / ((max api_requests.length 1 : Nat) : Rat)) * 100
    data_issues := (api_requests.filter (fun r => r.failed)).map (fun r => r.error_message)
    recommendations :=
      if successful_apis.length < api_requests.length then
        ["Implement better API error handling", "Add retry logic for failed requests"]
      else ["Data flow is working correctly"] }

/-- C5: a session with zero error-level console logs, zero failed network
requests, and zero session-, react- and api-classified errors gets technical
score exactly 100 and an empty critical-issues list. -/
theorem analyze_technical_clean_session (sess : DebugSession)
    (h1 : sess.console_logs.filter (fun l => l.level == "error") = [])
    (h2 : sess.network_requests.filter (fun r => r.failed) = [])
    (h3 : (sess.console_logs.filter (fun l => l.level == "error")).filter
      (fun l => strContainsSub (strToLower l.message) "session") = [])
    (h4 : (sess.console_logs.filter (fun l => l.level == "error")).filter
      (fun l => l.ctype == "react_error") = [])
    (h5 : (sess.console_logs.filter (fun l => l.level == "error")).filter
      (fun l => strContainsSub (strToLower l.message) "api") = []) :
    (analyze_technical sess).score = 100 ∧
      (analyze_technical sess).critical_issues = [] := by
  unfold analyze_technical
  rw [h1, h2]
  simp

/-- Witness for C5: an entirely empty session. -/
theorem analyze_technical_clean_session_witness :
    (analyze_technical { session_id := "s", url := "u", start_time := 0 }).score
        = 100 ∧
      (analyze_technical { session_id := "s", url := "u", start_time := 0
        }).critical_issues = [] :=
  analyze_technical_clean_session _ (by decide) (by decide) (by decide)
    (by decide) (by decide)

/-- C6 counterexample: a session whose only user flow is one failed flow whose
action contains "workout", but with a 10-second recorded timing, scores
100 - 15 - 25 - 10 = 50 rather than the claimed 60, because the average
interaction time exceeds the 5-second threshold. -/
def uxSlowFlow : UserFlowStep :=
  { step_name := "scenario_1"
    action := "Complete workout session"
    success := false
    timing := some 10 }

def uxSlowSession : DebugSession :=
  { session_id := "s", url := "u", start_time := 0, user_flows := [uxSlowFlow] }

theorem analyze_ux_one_workout_failure_counterexample :
    (analyze_ux uxSlowSession).score = 50 := by
  have h1 : uxSlowSession.user_flows.filter (fun f => !f.success) = [uxSlowFlow] := by
    decide
  have h2 : avgInteractionTime uxSlowSession.user_flows = 10 := by
    unfold avgInteractionTime uxSlowSession uxSlowFlow
    norm_num
  have h3 : strContainsSub (strToLower uxSlowFlow.action) "workout" = true := by
    decide
  unfold analyze_ux
  rw [h1, h2]
  simp only [List.filter_cons, List.filter_nil, h3, if_true, List.length_cons,
    List.length_nil, List.isEmpty_cons]
  norm_num

/-- C6 amended: a session whose user flows contain exactly one failed flow,
whose action text contains "workout", and whose average interaction time does
not exceed the 5-second threshold, gets UX score 100 - 15 - 25 = 60; when the
average exceeds 5 seconds a further 10 is deducted, and in general the UX
score is clamped at 0 from below. -/
theorem analyze_ux_one_workout_failure (sess : DebugSession)
    (f0 : UserFlowStep)
    (hf : sess.user_flows.filter (fun f => !f.success) = [f0])
    (hw : strContainsSub (strToLower f0.action) "workout" = true)
    (havg : avgInteractionTime sess.user_flows ≤ 5) :
    (analyze_ux sess).score = 60 ∧
      ∀ sess2 : DebugSession, 0 ≤ (analyze_ux sess2).score := by
  constructor
  · unfold analyze_ux
    rw [hf]
    simp [hw, not_lt.mpr havg]
  · intro sess2
    unfold analyze_ux
    exact le_max_right _ _

/-- Witness for C6: the same failed workout flow with a 1-second timing. -/
def uxQuickFlow : UserFlowStep :=
  { step_name := "scenario_1"
    action := "Complete workout session"
    success := false
    timing := some 1 }

def uxQuickSession : DebugSession :=
  { session_id := "s", url := "u", start_time := 0, user_flows := [uxQuickFlow] }

theorem analyze_ux_one_workout_failure_witness :
    (analyze_ux uxQuickSession).score = 60 :=
  (analyze_ux_one_workout_failure uxQuickSession uxQuickFlow
    (by decide) (by decide)
    (by unfold avgInteractionTime uxQuickSession uxQuickFlow; norm_num)).1

/-- C7: the data analyzer scores exactly 95 when every request whose url
contains "/api/" has a truthy 2xx status, and exactly 75 otherwise, no matter
how many requests failed or by how much. -/
theorem analyze_data_score_binary (sess : DebugSession) :
    (analyze_data sess).score =
      if (sess.network_requests.filter
          (fun r => strContainsSub r.url "/api/")).all
          (fun r => apiStatusOk r.status) then 95 else 75 := by
  have hiff :
      ((sess.network_requests.filter (fun r => strContainsSub r.url "/api/")).filter
          (fun r => apiStatusOk r.status)).length =
        (sess.network_requests.filter (fun r => strContainsSub r.url "/api/")).length ↔
      (sess.network_requests.filter (fun r => strContainsSub r.url "/api/")).all
        (fun r => apiStatusOk r.status) = true := by
    constructor
    · intro hlen
      rw [List.all_eq_true]
      intro r hr
      have heq := List.Sublist.eq_of_length (List.filter_sublist _) hlen
      rw [← heq] at hr
      exact (List.mem_filter.mp hr).2
    · intro hall
      rw [List.all_eq_true] at hall
      rw [List.filter_eq_self.mpr hall]
  unfold analyze_data
  dsimp only
  by_cases h : ((sess.network_requests.filter
        (fun r => strContainsSub r.url "/api/")).filter
        (fun r => apiStatusOk r.status)).length =
      (sess.network_requests.filter (fun r => strContainsSub r.url "/api/")).length
  · rw [if_pos h, if_pos (hiff.mp h)]
  · rw [if_neg h, if_neg fun hb => h (hiff.mpr hb)]

/-- `_extract_critical_issues` (lines 961-969): of the four perspective dicts,
only the technical one carries a `critical_issues` key, so the concatenation
interleaves the under-70 markers (in dict insertion order technical, ux,
performance, data) with the technical critical issues. -/
def extract_critical_issues (t : TechAnalysis) (u : UXAnalysis)
    (p : PerfAnalysis) (d : DataAnalysis) : List String :=
  (if t.score < 70 then
    ["TECHNICAL: Score " ++ toString t.score ++ " indicates critical issues"]
  else [])
  ++ t.critical_issues
  ++ (if u.score < 70 then
    ["UX: Score " ++ toString u.score ++ " indicates critical issues"]
  else [])
  ++ (if p.score < 70 then
    ["PERFORMANCE: Score " ++ toString p.score ++ " indicates critical issues"]
  else [])
  ++ (if d.score < 70 then
    ["DATA: Score " ++ toString d.score ++ " indicates critical issues"]
  else [])

/-- `_extract_recommendations` (lines 971-977). -/
def extract_recommendations (t : TechAnalysis) (u : UXAnalysis)
    (p : PerfAnalysis) (d : DataAnalysis) : List String :=
  t.recommendations.map (fun r => "[TECHNICAL] " ++ r)
  ++ u.recommendations.map (fun r => "[UX] " ++ r)
  ++ p.recommendations.map (fun r => "[PERFORMANCE] " ++ r)
  ++ d.recommendations.map (fun r => "[DATA] " ++ r)

/-- `_suggest_next_steps` (lines 979-1002). -/
def suggest_next_steps (t : TechAnalysis) (u : UXAnalysis)
    (p : PerfAnalysis) (d : DataAnalysis) : List String :=
  let steps :=
    (if t.score < 80 then ["Fix JavaScript errors and failed API requests"] else [])
    ++ (if u.score < 80 then ["Test and fix user interaction flows"] else [])
    ++ (if p.score < 80 then ["Optimize page load times and memory usage"] else [])
    ++ (if d.score < 80 then ["Improve API reliability and error handling"] else [])
  if steps.isEmpty then ["Continue monitoring - application appears healthy"]
  else steps

/-- `_generate_debug_report` (lines 931-959).  `now` stands for
`datetime.now()`; the overall score is the float mean of the four integer
perspective scores, which is a quarter-integer and hence exact, so the
Python `round(x, 1)` on it is exactly `pyRound1`.  The health grade is
computed from the unrounded mean, as in the source. -/
def generate_debug_report (session : DebugSession) (now : Nat)
    (t : TechAnalysis) (u : UXAnalysis) (p : PerfAnalysis) (d : DataAnalysis) :
    Report :=
  let total_events := session.events.length
  let error_events := (session.events.filter (fun e => e.level == "error")).length
  let warning_events := (session.events.filter (fun e => e.level == "warning")).length
  let perspective_scores : List Int := [t.score, u.score, p.score, d.score]
  let overall_score : Rat :=
    ((perspective_scores.sum : Int) : Rat) /
      ((perspective_scores.length : Nat) : Rat)
  { session_id := session.session_id
    url := session.url
    analysis_time := now
    duration_minutes := ((now - session.start_time : Nat) : Rat) / 60
    overall_score := pyRound1 overall_score
    health_grade :=
      if 85 < overall_score then "A" else if 70 < overall_score then "B" else "C"
    total_events := total_events
    errors := error_events
    warnings := warning_events
    screenshots_taken := session.screenshots.length
    user_flows_tested := session.user_flows.length
    technical := t
    ux := u
    performance := p
    data := d
    critical_issues := extract_critical_issues t u p d
    recommendations := extract_recommendations t u p d
    next_steps := suggest_next_steps t u p d }

theorem pyRoundEven_close (y : Rat) : |(pyRoundEven y : Rat) - y| ≤ 1 / 2 := by
  unfold pyRoundEven
  by_cases h : y - ⌊y⌋ = 1 / 2
  · by_cases he : ⌊y⌋ % 2 = 0
    · rw [if_pos h, if_pos he]
      rw [abs_le]
      constructor <;> linarith
    · rw [if_pos h, if_neg he]
      push_cast
      rw [abs_le]
      constructor <;> linarith
  · rw [if_neg h, abs_sub_comm]
    exact abs_sub_round y

def techA80 : TechAnalysis :=
  ⟨80, 0, 0, 0, 0, 0, 0, [], []⟩

def uxA60 : UXAnalysis :=
  ⟨60, 0, 0, 0, 0, 0, 0, [], []⟩

def perfA90 : PerfAnalysis :=
  ⟨90, 0, 0, "A", [], []⟩

def dataA95 : DataAnalysis :=
  ⟨95, 0, 0, 0, [], []⟩

def emptySess : DebugSession :=
  { session_id := "s", url := "u", start_time := 0 }

/-- C2: the report's overall score is the unweighted mean of exactly the four
perspective scores rounded to one decimal place (within 1/20 of the true
mean), and the implementation's rounding rule is ties-to-even: the
perspective scores 80, 60, 90, 95 with mean 81.25 produce exactly 81.2, not
81.3. -/
theorem generate_debug_report_overall_score (session : DebugSession)
    (now : Nat) (t : TechAnalysis) (u : UXAnalysis) (p : PerfAnalysis)
    (d : DataAnalysis) :
    (generate_debug_report session now t u p d).overall_score =
      pyRound1 (((t.score + u.score + p.score + d.score : Int) : Rat) / 4) ∧
    |(generate_debug_report session now t u p d).overall_score -
      ((t.score + u.score + p.score + d.score : Int) : Rat) / 4| ≤ 1 / 20 ∧
    (generate_debug_report emptySess 0 techA80 uxA60 perfA90 dataA95).overall_score
      = 812 / 10 := by
  have hmean : ∀ (t' : TechAnalysis) (u' : UXAnalysis) (p' : PerfAnalysis)
      (d' : DataAnalysis) (s' : DebugSession) (n' : Nat),
      (generate_debug_report s' n' t' u' p' d').overall_score =
        pyRound1 (((t'.score + u'.score + p'.score + d'.score : Int) : Rat) / 4) := by
    intro t' u' p' d' s' n'
    unfold generate_debug_report
    dsimp only
    congr 1
    simp only [List.sum_cons, List.sum_nil, List.length_cons, List.length_nil]
    push_cast
    ring
  refine ⟨hmean t u p d session now, ?_, ?_⟩
  · rw [hmean t u p d session now]
    have hc := pyRoundEven_close
      (10 * (((t.score + u.score + p.score + d.score : Int) : Rat) / 4))
    unfold pyRound1
    rw [abs_le] at hc ⊢
    constructor <;> [linarith [hc.1]; linarith [hc.2]]
  · rw [hmean techA80 uxA60 perfA90 dataA95 emptySess 0]
    have hval : ((((techA80.score + uxA60.score + perfA90.score +
        dataA95.score : Int) : Rat)) / 4) = 325 / 4 := by
      norm_num [techA80, uxA60, perfA90, dataA95]
    rw [hval]
    unfold pyRound1 pyRoundEven
    have hfloor : ⌊(10 * ((325 : Rat) / 4))⌋ = 812 := by
      rw [Int.floor_eq_iff]
      norm_num
    rw [hfloor]
    norm_num

/-- Embedding of the Python/JSON values that flow back from the PowerShell
bridge (`json.loads` output and the dicts built around it). -/
inductive PyVal where
  | pstr : String → PyVal
  | pint : Int → PyVal
  | pbool : Bool → PyVal
  | pnull : PyVal
  | plist : List PyVal → PyVal
  | pdict : List (String × PyVal) → PyVal

/-- `_powershell_request` (lines 80-116), abstracted over the outcome of the
`subprocess.run` bridge call: `rc` and `stderr` are the bridge process exit
code and standard error, `parsed` is `some v` when `json.loads(result.stdout)`
succeeds with value `v` and `none` when it raises `JSONDecodeError`, and
`raw` is the raw stdout text.  A non-zero exit code raises (`Except.error`);
an undecodable body is downgraded to a `raw_output` dict. -/
def powershell_request (rc : Int) (stderr : String) (parsed : Option PyVal)
    (raw : String) : Except String PyVal :=
  if rc ≠ 0 then
    .error ("PowerShell request failed: " ++ stderr)
  else
    match parsed with
    | some v => .ok v
    | none => .ok (.pdict [("raw_output", .pstr raw)])

/-- `list_tabs` (lines 132-139): forwards `_powershell_request('GET','/json')`
without a try/except, then normalises the response shape, returning the list
itself, the list under a `value` key, or `[]` for any other shape. -/
def list_tabs (rc : Int) (stderr : String) (parsed : Option PyVal)
    (raw : String) : Except String (List PyVal) :=
  match powershell_request rc stderr parsed raw with
  | .error e => .error e
  | .ok response =>
    .ok (match response with
      | .plist l => l
      | .pdict d =>
        match dictGet d "value" with
        | some (.plist l) => l
        | some _ => []
        | none => []
      | _ => [])

/-- C3 counterexample: when the bridge process exits non-zero, `list_tabs`
does not return an empty sequence; the exception from `_powershell_request`
propagates to the caller. -/
theorem list_tabs_raises_counterexample :
    list_tabs 1 "boom" none "" = .error "PowerShell request failed: boom" ∧
      list_tabs 1 "boom" none "" ≠ .ok [] := by
  refine ⟨rfl, fun hcontra => ?_⟩
  rw [show list_tabs 1 "boom" none "" =
    .error "PowerShell request failed: boom" from rfl] at hcontra
  exact Except.noConfusion hcontra

/-- C3 amended: on a zero exit code `list_tabs` never raises — it returns the
decoded list unchanged and in order, and returns `[]` for a non-list response
shape (an undecodable body, or a dict whose `value` key is missing) — but a
bridge failure (non-zero exit code) raises `PowerShell request failed`
instead of returning an empty sequence. -/
theorem list_tabs_spec (rc : Int) (stderr : String) (parsed : Option PyVal)
    (raw : String) :
    (rc ≠ 0 →
      list_tabs rc stderr parsed raw =
        .error ("PowerShell request failed: " ++ stderr)) ∧
    (rc = 0 → ∀ l : List PyVal, parsed = some (.plist l) →
      list_tabs rc stderr parsed raw = .ok l) ∧
    (rc = 0 → parsed = none → list_tabs rc stderr parsed raw = .ok []) ∧
    (rc = 0 → ∀ d : List (String × PyVal), parsed = some (.pdict d) →
      dictGet d "value" = none → list_tabs rc stderr parsed raw = .ok []) := by
  refine ⟨?_, ?_, ?_, ?_⟩
  · intro hrc
    unfold list_tabs powershell_request
    rw [if_pos hrc]
  · intro hrc l hp
    subst hp
    unfold list_tabs powershell_request
    rw [if_neg (by simp [hrc])]
  · intro hrc hp
    subst hp
    unfold list_tabs powershell_request
    rw [if_neg (by simp [hrc])]
    rfl
  · intro hrc d hp hv
    subst hp
    unfold list_tabs powershell_request
    rw [if_neg (by simp [hrc])]
    dsimp only
    rw [hv]

/-- Witness for C3's amended statement: a successful bridge call with a
two-tab JSON list is returned in order, and a raw-output downgrade yields
an empty tab list. -/
theorem list_tabs_spec_witness :
    list_tabs 0 "" (some (.plist [.pstr "tab1", .pstr "tab2"])) "" =
        .ok [.pstr "tab1", .pstr "tab2"] ∧
      list_tabs 0 "" none "garbage" = .ok [] :=
  ⟨(list_tabs_spec 0 "" (some (.plist [.pstr "tab1", .pstr "tab2"])) "").2.1
      rfl [.pstr "tab1", .pstr "tab2"] rfl,
    (list_tabs_spec 0 "" none "garbage").2.2.1 rfl rfl⟩

/-- The polling function `checkElement` of the JavaScript injected by
`wait_for_element` (lines 365-397).  `present e` says whether
`document.querySelector` finds the element at elapsed time `e` ms; the
timeout test is the source's strict `Date.now() - startTime > timeout`; a
miss schedules the next check 100 ms later (`setTimeout(checkElement, 100)`).
The result is the pair (`found`, `waitTime`). -/
def checkElement (present : Nat → Bool) (timeoutMs : Nat) (t : Nat) :
    Bool × Nat :=
  if present t then (true, t)
  else if timeoutMs < t then (false, t)
  else checkElement present timeoutMs (t + 100)
termination_by timeoutMs + 1 - t
decreasing_by omega

/-- `wait_for_element` (lines 356-407): the wait budget is
`timeout * 1000` ms and polling starts at elapsed time 0. -/
def wait_for_element (present : Nat → Bool) (timeout : Nat) : Bool × Nat :=
  checkElement present (timeout * 1000) 0

theorem checkElement_found (present : Nat → Bool) (T t : Nat)
    (h : present t = true) : checkElement present T t = (true, t) := by
  unfold checkElement
  rw [h]
  simp

theorem checkElement_poll (present : Nat → Bool) (T t : Nat)
    (h : present t = false) (h2 : t ≤ T) :
    checkElement present T t = checkElement present T (t + 100) := by
  conv_lhs => unfold checkElement
  rw [h]
  simp [Nat.not_lt.mpr h2]

theorem checkElement_timeout (present : Nat → Bool) (T t : Nat)
    (h : present t = false) (h2 : T < t) :
    checkElement present T t = (false, t) := by
  unfold checkElement
  rw [h]
  simp [h2]

theorem checkElement_main (present : Nat → Bool) (T : Nat) :
    ∀ n t, T + 1 - t ≤ n →
      ((checkElement present T t).1 = true ∧
        present ((checkElement present T t).2) = true) ∨
      ((checkElement present T t).1 = false ∧
        present ((checkElement present T t).2) = false ∧
        T < (checkElement present T t).2) := by
  intro n
  induction n with
  | zero =>
    intro t h0
    by_cases hp : present t
    · left
      rw [checkElement_found present T t hp]
      exact ⟨rfl, hp⟩
    · right
      have hp' : present t = false := by simpa using hp
      have ht : T < t := by omega
      rw [checkElement_timeout present T t hp' ht]
      exact ⟨rfl, hp', ht⟩
  | succ n ih =>
    intro t h
    by_cases hp : present t
    · left
      rw [checkElement_found present T t hp]
      exact ⟨rfl, hp⟩
    · have hp' : present t = false := by simpa using hp
      by_cases ht : T < t
      · right
        rw [checkElement_timeout present T t hp' ht]
        exact ⟨rfl, hp', ht⟩
      · rw [checkElement_poll present T t hp' (Nat.not_lt.mp ht)]
        exact ih (t + 100) (by omega)

/-- C4 counterexample: with a 1-second budget and an element that appears
exactly at the 1000 ms boundary check, the injected loop resolves to a
"found" result with elapsed time equal to (not less than) the timeout — the
boundary does not resolve to "timed out", because the element check precedes
the timeout check and the timeout comparison is strict. -/
theorem wait_for_element_boundary_counterexample :
    wait_for_element (fun t => decide (t = 1000)) 1 = (true, 1000) := by
  unfold wait_for_element
  norm_num
  rw [checkElement_poll _ _ _ (by decide) (by decide)]
  rw [checkElement_poll _ _ _ (by decide) (by decide)]
  rw [checkElement_poll _ _ _ (by decide) (by decide)]
  rw [checkElement_poll _ _ _ (by decide) (by decide)]
  rw [checkElement_poll _ _ _ (by decide) (by decide)]
  rw [checkElement_poll _ _ _ (by decide) (by decide)]
  rw [checkElement_poll _ _ _ (by decide) (by decide)]
  rw [checkElement_poll _ _ _ (by decide) (by decide)]
  rw [checkElement_poll _ _ _ (by decide) (by decide)]
  rw [checkElement_poll _ _ _ (by decide) (by decide)]
  exact checkElement_found _ _ _ (by decide)

/-- C4 amended: a "timed out" result carries elapsed time strictly greater
than the timeout (hence ≥ timeout) and only occurs with the element absent at
that check; when the selector never appears the result is always "timed out";
and a "found" result fires at a check where the element is present — even at
or past the timeout instant, so a check exactly at the timeout with the
element present yields "found" with elapsed time equal to the timeout rather
than "timed out". -/
theorem wait_for_element_spec (present : Nat → Bool) (timeout : Nat) :
    ((wait_for_element present timeout).1 = false →
      timeout * 1000 < (wait_for_element present timeout).2 ∧
        present ((wait_for_element present timeout).2) = false) ∧
    ((wait_for_element present timeout).1 = true →
      present ((wait_for_element present timeout).2) = true) ∧
    ((∀ t, present t = false) → (wait_for_element present timeout).1 = false) := by
  have h := checkElement_main present (timeout * 1000) (timeout * 1000 + 1) 0
    (by omega)
  unfold wait_for_element
  refine ⟨?_, ?_, ?_⟩
  · intro hf
    rcases h with ⟨h1, _⟩ | ⟨_, h2, h3⟩
    · rw [hf] at h1
      exact absurd h1 (by simp)
    · exact ⟨h3, h2⟩
  · intro hf
    rcases h with ⟨_, h2⟩ | ⟨h1, _, _⟩
    · exact h2
    · rw [hf] at h1
      exact absurd h1 (by simp)
  · intro hnever
    rcases h with ⟨_, h2⟩ | ⟨h1, _, _⟩
    · rw [hnever] at h2
      exact absurd h2 (by simp)
    · exact h1

/-- Witness for C4's amended statement: a selector that never appears under a
zero-second budget yields a timed-out result whose elapsed time (100 ms, the
first check past the budget) exceeds the timeout. -/
theorem wait_for_element_spec_witness :
    (wait_for_element (fun _ => false) 0).1 = false ∧
      0 * 1000 < (wait_for_element (fun _ => false) 0).2 :=
  ⟨(wait_for_element_spec (fun _ => false) 0).2.2 (fun _ => rfl),
    ((wait_for_element_spec (fun _ => false) 0).1
      ((wait_for_element_spec (fun _ => false) 0).2.2 (fun _ => rfl))).1⟩

/-- The fixed substring table of `_execute_fitforge_scenario`
(lines 681-696), in source order. -/
def fitforgePatterns : List String :=
  ["Navigate to /workouts page", "Click Start Workout button",
   "Select exercise from workout types", "Log a set with weight and reps",
   "Complete workout session", "Check progress analytics page",
   "Test CSV export functionality", "Verify user preferences"]

/-- Whether a scenario string matches any entry of the fixed table. -/
def matchesFitforgePattern (scen : String) : Bool :=
  fitforgePatterns.any (fun p => strContainsSub scen p)

/-- `_execute_fitforge_scenario` (lines 678-704), abstracted over the
outcomes of the eight `_test_*` helpers: `tests name` is `.ok b` when the
named helper returns `b` and `.error e` when it raises; the surrounding
try/except turns a raised exception into `False`.  Unmatched scenario text
falls back to `time.sleep(1); return True`. -/
def execute_fitforge (tests : String → Except String Bool) (scen : String) :
    Bool :=
  let run := fun (name : String) =>
    match tests name with
    | .ok b => b
    | .error _ => false
  if strContainsSub scen "Navigate to /workouts page" then
    run "navigate_to_workouts"
  else if strContainsSub scen "Click Start Workout button" then
    run "start_workout_button"
  else if strContainsSub scen "Select exercise from workout types" then
    run "select_exercise"
  else if strContainsSub scen "Log a set with weight and reps" then
    run "log_set"
  else if strContainsSub scen "Complete workout session" then
    run "complete_workout"
  else if strContainsSub scen "Check progress analytics page" then
    run "progress_page"
  else if strContainsSub scen "Test CSV export functionality" then
    run "csv_export"
  else if strContainsSub scen "Verify user preferences" then
    run "user_preferences"
  else
    true

/-- `_run_test_scenarios` (lines 633-676), abstracted over the per-index
outcome of `take_screenshot` (`shot i`, which may raise) and the `_test_*`
helper outcomes (`tests i`), with `dur i` the measured elapsed seconds of
step `i`.  A screenshot exception is caught by the per-step try/except and
recorded as a failed step carrying the exception text; otherwise the step
records the scenario outcome, with the fixed text `Scenario execution
failed` on failure.  One `UserFlowStep` is produced per scenario, in order,
with no retry and no early abort. -/
def run_test_scenarios (shot : Nat → Except String Unit)
    (tests : Nat → String → Except String Bool) (dur : Nat → Rat)
    (sid : String) (scens : List String) : List UserFlowStep :=
  scens.enum.map (fun p =>
    let i := p.1
    let scen := p.2
    let base : UserFlowStep :=
      { step_name := "scenario_" ++ toString (i + 1)
        action := scen
        screenshot_path :=
          some ("/tmp/debug_" ++ sid ++ "_scenario_" ++ toString (i + 1)
            ++ ".png") }
    match shot i with
    | .error e =>
      { base with success := false, error_message := some e,
                  timing := some (dur i) }
    | .ok _ =>
      let ok := execute_fitforge (tests i) scen
      { base with success := ok
                  error_message :=
                    if ok then none else some "Scenario execution failed"
                  timing := some (dur i) })

theorem execute_fitforge_unmatched (tests : String → Except String Bool)
    (scen : String) (h : matchesFitforgePattern scen = false) :
    execute_fitforge tests scen = true := by
  unfold matchesFitforgePattern fitforgePatterns at h
  simp only [List.any_cons, List.any_nil, Bool.or_eq_false_iff] at h
  obtain ⟨h1, h2, h3, h4, h5, h6, h7, h8, -⟩ := h
  unfold execute_fitforge
  simp [h1, h2, h3, h4, h5, h6, h7, h8]

/-- C8 counterexample: when the pre-step screenshot raises (as it does
whenever no browser tab is available), even a scenario string matching none
of the fixed patterns is recorded as a failed step, not as a succeeding
no-op. -/
theorem run_test_scenarios_screenshot_counterexample :
    ((run_test_scenarios (fun _ => .error "No tabs available for screenshot")
        (fun _ _ => .ok true) (fun _ => 0) "sid" ["do nothing special"]).map
      (fun st => st.success)) = [false] ∧
    matchesFitforgePattern "do nothing special" = false := by
  constructor
  · rfl
  · decide

/-- C8 amended: the scenario runner emits exactly one `UserFlowStep` per
scenario, in order (step `i` carries scenario `i`'s text, the name
`scenario_{i+1}` and a recorded elapsed time), regardless of success and
without retries or early abort; when the pre-step screenshot does not raise,
the step's success is the dispatched scenario outcome, and a scenario
matching none of the fixed substring patterns succeeds as a no-op.  When the
screenshot raises, the step is recorded as failed with the exception text. -/
theorem run_test_scenarios_spec (shot : Nat → Except String Unit)
    (tests : Nat → String → Except String Bool) (dur : Nat → Rat)
    (sid : String) (scens : List String) :
    (run_test_scenarios shot tests dur sid scens).length = scens.length ∧
    (∀ i scen, scens[i]? = some scen →
      ((run_test_scenarios shot tests dur sid scens)[i]?.map
          (fun st => st.action)) = some scen ∧
      ((run_test_scenarios shot tests dur sid scens)[i]?.map
          (fun st => st.step_name)) =
        some ("scenario_" ++ toString (i + 1)) ∧
      ((run_test_scenarios shot tests dur sid scens)[i]?.map
          (fun st => st.timing)) = some (some (dur i)) ∧
      (shot i = .ok () →
        ((run_test_scenarios shot tests dur sid scens)[i]?.map
            (fun st => st.success)) =
          some (execute_fitforge (tests i) scen)) ∧
      (shot i = .ok () → matchesFitforgePattern scen = false →
        ((run_test_scenarios shot tests dur sid scens)[i]?.map
            (fun st => st.success)) = some true)) := by
  constructor
  · unfold run_test_scenarios
    simp
  · intro i scen hscen
    have hout : (run_test_scenarios shot tests dur sid scens)[i]? =
        some ((fun p : Nat × String =>
          let i := p.1
          let scen := p.2
          let base : UserFlowStep :=
            { step_name := "scenario_" ++ toString (i + 1)
              action := scen
              screenshot_path :=
                some ("/tmp/debug_" ++ sid ++ "_scenario_" ++ toString (i + 1)
                  ++ ".png") }
          match shot i with
          | .error e =>
            { base with success := false, error_message := some e,
                        timing := some (dur i) }
          | .ok _ =>
            let ok := execute_fitforge (tests i) scen
            { base with success := ok
                        error_message :=
                          if ok then none else some "Scenario execution failed"
                        timing := some (dur i) }) (i, scen)) := by
      unfold run_test_scenarios
      rw [List.getElem?_map, List.getElem?_enum, hscen]
      rfl
    rw [hout]
    cases hs : shot i with
    | error e =>
      refine ⟨by simp [hs], by simp [hs], by simp [hs], ?_, ?_⟩
      · intro hok
        exact Except.noConfusion hok
      · intro hok
        exact Except.noConfusion hok
    | ok u =>
      refine ⟨by simp [hs], by simp [hs], by simp [hs], ?_, ?_⟩
      · intro _
        simp [hs]
      · intro _ hmatch
        simp [hs, execute_fitforge_unmatched (tests i) scen hmatch]

/-- Witness for C8's amended statement at a concrete two-scenario run: the
unmatched second scenario comes back as a succeeding step named
`scenario_2`. -/
theorem run_test_scenarios_spec_witness :
    ((run_test_scenarios (fun _ => .ok ()) (fun _ _ => .ok false) (fun _ => 0)
        "sid" ["Verify user preferences", "do nothing special"])[1]?.map
      (fun st => st.success)) = some true ∧
    ((run_test_scenarios (fun _ => .ok ()) (fun _ _ => .ok false) (fun _ => 0)
        "sid" ["Verify user preferences", "do nothing special"])[1]?.map
      (fun st => st.step_name)) = some "scenario_2" := by
  have h := (run_test_scenarios_spec (fun _ => .ok ()) (fun _ _ => .ok false)
    (fun _ => 0) "sid" ["Verify user preferences", "do nothing special"]).2
    1 "do nothing special" rfl
  exact ⟨h.2.2.2.2 rfl (by decide), by simpa using h.2.1⟩

/-- The mutable state of `EnhancedWSLChromeDebugger` relevant to the session
store: `self.sessions`, `self.current_session` and `self.max_events`
(lines 64-70; the port and base url play no role in session bookkeeping). -/
structure DebuggerState where
  sessions : List (String × DebugSession) := []
  current : Option String := none
  max_events : Nat := 1000
deriving DecidableEq, Repr

/-- The guarded current-session mutation pattern shared by `_log_event` and
the collectors (`if self.current_session: ... self.sessions[self.current_session] ...`):
a no-op without a current session, a `KeyError` (`none`) if the current id is
missing from the store, and otherwise an in-place update of that session. -/
def modifyCurrent (st : DebuggerState) (f : DebugSession → DebugSession) :
    Option DebuggerState :=
  match st.current with
  | none => some st
  | some sid =>
    match dictGet st.sessions sid with
    | none => none
    | some sess =>
      some { st with sessions := dictSet st.sessions sid (f sess) }

/-- `_log_event` (lines 1004-1020) on the debugger state; `now` stands for
`datetime.now()`.  The `result` entries of the payload dicts logged by the
interaction primitives are elided from `data`: no claim observes payloads. -/
def log_event (st : DebuggerState) (now : Nat) (etype : String)
    (data : List (String × String)) (level : String := "info")
    (category : String := "general") : Option DebuggerState :=
  modifyCurrent st (fun sess =>
    { sess with
        events :=
          logEventList st.max_events sess.events
            { timestamp := now
              event_type := etype
              data := data
              level := level
              category := category } })

/-- `click_element` (lines 254-306), abstracted over the environment:
`tabsResult` is the outcome of `list_tabs` (whose exception would propagate)
and `jsResult` the value `_execute_javascript` returns for the click script.
With no tab id supplied the first listed tab is used; an empty tab list
returns the `No tabs available` dict before any logging.  The interaction is
logged only when a session is active. -/
def click_element (st : DebuggerState) (now : Nat)
    (tabsResult : Except String (List PyVal)) (jsResult : PyVal)
    (selector : String) : Except String (PyVal × DebuggerState) :=
  match tabsResult with
  | .error e => .error e
  | .ok [] => .ok (.pdict [("error", .pstr "No tabs available")], st)
  | .ok (_ :: _) =>
    let result := jsResult
    if st.current.isSome then
      match log_event st now "element_clicked" [("selector", selector)]
          "info" "interaction" with
      | none => .error "KeyError"
      | some st2 => .ok (result, st2)
    else
      .ok (result, st)

/-- `fill_input` (lines 308-354), abstracted like `click_element`. -/
def fill_input (st : DebuggerState) (now : Nat)
    (tabsResult : Except String (List PyVal)) (jsResult : PyVal)
    (selector value : String) : Except String (PyVal × DebuggerState) :=
  match tabsResult with
  | .error e => .error e
  | .ok [] => .ok (.pdict [("error", .pstr "No tabs available")], st)
  | .ok (_ :: _) =>
    let result := jsResult
    if st.current.isSome then
      match log_event st now "input_filled"
          [("selector", selector), ("value", value)] "info" "interaction" with
      | none => .error "KeyError"
      | some st2 => .ok (result, st2)
    else
      .ok (result, st)

/-- C10: with no active session, `_log_event` is a no-op on the session
store, and the interaction primitives leave the debugger state entirely
unchanged while still returning their result (the script result on a
non-empty tab list, the `No tabs available` dict on an empty one). -/
theorem log_event_no_session_frame (st : DebuggerState)
    (h : st.current = none) :
    (∀ now etype data level category,
      log_event st now etype data level category = some st) ∧
    (∀ now t0 ts js sel,
      click_element st now (.ok (t0 :: ts)) js sel = .ok (js, st)) ∧
    (∀ now js sel,
      click_element st now (.ok []) js sel =
        .ok (.pdict [("error", .pstr "No tabs available")], st)) ∧
    (∀ now t0 ts js sel v,
      fill_input st now (.ok (t0 :: ts)) js sel v = .ok (js, st)) := by
  have hlog : ∀ now etype data level category,
      log_event st now etype data level category = some st := by
    intro now etype data level category
    unfold log_event modifyCurrent
    rw [h]
  refine ⟨hlog, ?_, ?_, ?_⟩
  · intro now t0 ts js sel
    unfold click_element
    rw [h]
    rfl
  · intro now js sel
    rfl
  · intro now t0 ts js sel v
    unfold fill_input
    rw [h]
    rfl

/-- Witness for C10 at the initial debugger state, which has no current
session. -/
theorem log_event_no_session_frame_witness :
    log_event ({} : DebuggerState) 0 "element_clicked" [] "info" "interaction"
        = some {} ∧
      click_element ({} : DebuggerState) 0 (.ok [.pstr "tab"]) (.pstr "r") "#b"
        = .ok (.pstr "r", {}) :=
  ⟨(log_event_no_session_frame {} rfl).1 0 "element_clicked" [] "info"
      "interaction",
    (log_event_no_session_frame {} rfl).2.1 0 (.pstr "tab") [] (.pstr "r") "#b"⟩

/-- The session-store mutations performed by the source, one constructor per
mutation site: `_log_event` (line 1016), `_collect_console_logs` (line 581),
`_collect_network_activity` (line 608), `_collect_performance_metrics`
(line 627), the screenshot append (line 1184), `_run_test_scenarios`
(line 674), `start_debug_session` (lines 157-164) and the final
`session.summary = report` assignment of `analyze_webapp` (line 531). -/
inductive DebugOp where
  | logEv (now : Nat) (etype : String) (data : List (String × String))
      (level category : String)
  | extendConsole (ls : List ConsoleLog)
  | extendNetwork (rs : List NetworkRequest)
  | updatePerf (m : List (String × Rat))
  | appendScreenshot (path : String)
  | extendFlows (fs : List UserFlowStep)
  | startSession (sid url : String) (t0 : Nat)
  | setSummary (sid : String) (r : Report)
deriving DecidableEq, Repr

/-- One mutation step on the debugger state; `none` models a raised
`KeyError`. -/
def stepOp (st : DebuggerState) : DebugOp → Option DebuggerState
  | .logEv now etype data level category =>
    log_event st now etype data level category
  | .extendConsole ls =>
    modifyCurrent st (fun s => { s with console_logs := s.console_logs ++ ls })
  | .extendNetwork rs =>
    modifyCurrent st
      (fun s => { s with network_requests := s.network_requests ++ rs })
  | .updatePerf m =>
    modifyCurrent st (fun s =>
      { s with performance_metrics :=
          m.foldl (fun acc p => dictSet acc p.1 p.2) s.performance_metrics })
  | .appendScreenshot path =>
    modifyCurrent st (fun s => { s with screenshots := s.screenshots ++ [path] })
  | .extendFlows fs =>
    modifyCurrent st (fun s => { s with user_flows := s.user_flows ++ fs })
  | .startSession sid url t0 =>
    some { st with
             sessions := dictSet st.sessions sid { session_id := sid, url := url, start_time := t0 }
             current := some sid }
  | .setSummary sid r =>
    match dictGet st.sessions sid with
    | none => none
    | some sess =>
      some { st with sessions := dictSet st.sessions sid { sess with summary := some r } }

/-- A sequence of mutation steps, stopping at the first raised error. -/
def stepTrace (st : DebuggerState) : List DebugOp → Option DebuggerState
  | [] => some st
  | op :: rest =>
    match stepOp st op with
    | none => none
    | some st2 => stepTrace st2 rest

/-- The result of `get_session_report`: either one of its error dicts or the
stored summary report. -/
inductive ReportOut where
  | err (msg : String)
  | report (r : Report)
deriving DecidableEq, Repr

/-- Python truthiness of the optional `session_id` string: `None` and the
empty string are both falsy under `if not session_id`. -/
def strOptFalsy (s? : Option String) : Bool :=
  match s? with
  | none => true
  | some s => s == ""

/-- `get_session_report` (lines 1022-1034).  The first guard is the source's
`if not session_id: session_id = self.current_session`, so a `None` or empty
string argument reroutes to the current session; the second guard is
`if not session_id or session_id not in self.sessions`, so a still-falsy id
(no current session, or an empty-string current session) or an id absent
from the store answers `Session not found`.  The function only reads the
state; the returned state component makes the absence of mutation explicit. -/
def get_session_report (st : DebuggerState) (sid? : Option String) :
    ReportOut × DebuggerState :=
  let sid1 := if strOptFalsy sid? then st.current else sid?
  match sid1 with
  | none => (.err "Session not found", st)
  | some sid =>
    if sid == "" then
      (.err "Session not found", st)
    else
      match dictGet st.sessions sid with
      | none => (.err "Session not found", st)
      | some sess =>
        match sess.summary with
        | some r => (.report r, st)
        | none => (.err "Session analysis not complete", st)

theorem get_session_report_some (st : DebuggerState) (sid : String)
    (hsid : sid ≠ "") :
    get_session_report st (some sid) =
      (match dictGet st.sessions sid with
       | none => (.err "Session not found", st)
       | some sess =>
         match sess.summary with
         | some r => (.report r, st)
         | none => (.err "Session analysis not complete", st)) := by
  unfold get_session_report
  have h1 : strOptFalsy (some sid) = false := by
    simp [strOptFalsy, hsid]
  have h2 : (sid == "") = false := beq_eq_false_iff_ne.mpr hsid
  dsimp only
  rw [h1]
  simp only [Bool.false_eq_true, if_false]
  rw [h2]
  simp only [Bool.false_eq_true, if_false]

/-- The summary-populating tail of `analyze_webapp` (lines 524-531): run the
four perspective analyzers on the session and assign the generated report to
`session.summary`. -/
def analyze_webapp_populate (st : DebuggerState) (sid : String) (now : Nat) :
    Option DebuggerState :=
  match dictGet st.sessions sid with
  | none => none
  | some sess =>
    some { st with
             sessions :=
               dictSet st.sessions sid
                 { sess with
                     summary := some (generate_debug_report sess now
                       (analyze_technical sess) (analyze_ux sess)
                       (analyze_performance sess) (analyze_data sess)) } }

/-- Whether an op is the summary assignment for the given session id. -/
def isSetSummaryFor (sid : String) : DebugOp → Bool
  | .setSummary s _ => s == sid
  | _ => false

/-- The session (if present) has an empty summary dict. -/
def summaryCleared (sid : String) (st : DebuggerState) : Prop :=
  ∀ s, dictGet st.sessions sid = some s → s.summary = none

theorem dictGet_cons {β : Type} (p : String × β) (t : List (String × β))
    (k : String) :
    dictGet (p :: t) k = if p.1 = k then some p.2 else dictGet t k := rfl

theorem dictGet_replaceKey {β : Type} (l : List (String × β)) (k : String)
    (v : β) (h : (dictGet l k).isSome) :
    dictGet (l.map (fun p => if p.1 = k then (k, v) else p)) k = some v := by
  induction l with
  | nil => simp [dictGet] at h
  | cons p t ih =>
    simp only [List.map_cons]
    by_cases hk : p.1 = k
    · rw [if_pos hk, dictGet_cons]
      simp
    · rw [if_neg hk, dictGet_cons, if_neg hk]
      rw [dictGet_cons, if_neg hk] at h
      exact ih h

theorem dictGet_replaceKey_ne {β : Type} (l : List (String × β))
    (k k' : String) (v : β) (hne : k' ≠ k) :
    dictGet (l.map (fun p => if p.1 = k then (k, v) else p)) k' =
      dictGet l k' := by
  induction l with
  | nil => rfl
  | cons p t ih =>
    simp only [List.map_cons]
    by_cases hk : p.1 = k
    · rw [if_pos hk, dictGet_cons, dictGet_cons,
        if_neg (fun hh : k = k' => hne hh.symm),
        if_neg (fun hh : p.1 = k' => hne (hk ▸ hh).symm)]
      exact ih
    · rw [if_neg hk, dictGet_cons, dictGet_cons]
      by_cases hk' : p.1 = k'
      · rw [if_pos hk', if_pos hk']
      · rw [if_neg hk', if_neg hk']
        exact ih

theorem dictGet_append_ne {β : Type} (l : List (String × β))
    (k k' : String) (v : β) (hne : k' ≠ k) :
    dictGet (l ++ [(k, v)]) k' = dictGet l k' := by
  induction l with
  | nil =>
    simp only [List.nil_append, dictGet_cons,
      if_neg (fun hh : k = k' => hne hh.symm)]
  | cons p t ih =>
    rw [List.cons_append, dictGet_cons, dictGet_cons]
    by_cases hk' : p.1 = k'
    · rw [if_pos hk', if_pos hk']
    · rw [if_neg hk', if_neg hk']
      exact ih

theorem dictGet_dictSet_self {β : Type} (l : List (String × β)) (k : String)
    (v : β) : dictGet (dictSet l k v) k = some v := by
  unfold dictSet
  by_cases h : (dictGet l k).isSome
  · rw [if_pos h]
    exact dictGet_replaceKey l k v h
  · rw [if_neg h]
    induction l with
    | nil => simp [dictGet]
    | cons p t ih =>
      have hk : ¬ p.1 = k := by
        intro hk
        apply h
        rw [dictGet_cons, if_pos hk]
        simp
      have ht : ¬ (dictGet t k).isSome = true := by
        intro h2
        apply h
        rw [dictGet_cons, if_neg hk]
        exact h2
      rw [List.cons_append, dictGet_cons, if_neg hk]
      exact ih ht

theorem dictGet_dictSet_ne {β : Type} (l : List (String × β)) (k k' : String)
    (v : β) (hne : k' ≠ k) : dictGet (dictSet l k v) k' = dictGet l k' := by
  unfold dictSet
  by_cases h : (dictGet l k).isSome
  · rw [if_pos h]
    exact dictGet_replaceKey_ne l k k' v hne
  · rw [if_neg h]
    exact dictGet_append_ne l k k' v hne

theorem summaryCleared_modifyCurrent (sid : String) (st st2 : DebuggerState)
    (f : DebugSession → DebugSession) (hf : ∀ s, (f s).summary = s.summary)
    (hstep : modifyCurrent st f = some st2) (hinv : summaryCleared sid st) :
    summaryCleared sid st2 := by
  unfold modifyCurrent at hstep
  cases hc : st.current with
  | none =>
    rw [hc] at hstep
    dsimp only at hstep
    injection hstep with h2
    subst h2
    exact hinv
  | some cur =>
    rw [hc] at hstep
    dsimp only at hstep
    cases hg : dictGet st.sessions cur with
    | none =>
      rw [hg] at hstep
      exact Option.noConfusion hstep
    | some sess =>
      rw [hg] at hstep
      injection hstep with h2
      subst h2
      intro s hs
      dsimp only at hs
      by_cases hcur : sid = cur
      · subst hcur
        rw [dictGet_dictSet_self] at hs
        injection hs with h3
        subst h3
        rw [hf sess]
        exact hinv sess hg
      · rw [dictGet_dictSet_ne _ _ _ _ hcur] at hs
        exact hinv s hs

theorem summaryCleared_stepOp (sid : String) (st st2 : DebuggerState)
    (op : DebugOp) (hop : isSetSummaryFor sid op = false)
    (hstep : stepOp st op = some st2) (hinv : summaryCleared sid st) :
    summaryCleared sid st2 := by
  cases op with
  | logEv now etype data level category =>
    simp only [stepOp] at hstep
    unfold log_event at hstep
    refine summaryCleared_modifyCurrent sid st st2 _ ?_ hstep hinv
    intro s
    rfl
  | extendConsole ls =>
    simp only [stepOp] at hstep
    refine summaryCleared_modifyCurrent sid st st2 _ ?_ hstep hinv
    intro s
    rfl
  | extendNetwork rs =>
    simp only [stepOp] at hstep
    refine summaryCleared_modifyCurrent sid st st2 _ ?_ hstep hinv
    intro s
    rfl
  | updatePerf m =>
    simp only [stepOp] at hstep
    refine summaryCleared_modifyCurrent sid st st2 _ ?_ hstep hinv
    intro s
    rfl
  | appendScreenshot path =>
    simp only [stepOp] at hstep
    refine summaryCleared_modifyCurrent sid st st2 _ ?_ hstep hinv
    intro s
    rfl
  | extendFlows fs =>
    simp only [stepOp] at hstep
    refine summaryCleared_modifyCurrent sid st st2 _ ?_ hstep hinv
    intro s
    rfl
  | startSession sid' url t0 =>
    simp only [stepOp] at hstep
    injection hstep with h2
    subst h2
    intro s hs
    dsimp only at hs
    by_cases hcur : sid = sid'
    · subst hcur
      rw [dictGet_dictSet_self] at hs
      injection hs with h3
      subst h3
      rfl
    · rw [dictGet_dictSet_ne _ _ _ _ hcur] at hs
      exact hinv s hs
  | setSummary sid' r =>
    have hne : sid ≠ sid' := by
      intro hh
      subst hh
      unfold isSetSummaryFor at hop
      simp at hop
    simp only [stepOp] at hstep
    cases hg : dictGet st.sessions sid' with
    | none =>
      rw [hg] at hstep
      exact Option.noConfusion hstep
    | some sess =>
      rw [hg] at hstep
      injection hstep with h2
      subst h2
      intro s hs
      dsimp only at hs
      rw [dictGet_dictSet_ne _ _ _ _ hne] at hs
      exact hinv s hs

theorem summaryCleared_stepTrace (sid : String) :
    ∀ (trace : List DebugOp) (st st2 : DebuggerState),
      stepTrace st trace = some st2 →
      (∀ op ∈ trace, isSetSummaryFor sid op = false) →
      summaryCleared sid st → summaryCleared sid st2 := by
  intro trace
  induction trace with
  | nil =>
    intro st st2 h hops hinv
    injection h with h2
    subst h2
    exact hinv
  | cons op rest ih =>
    intro st st2 h hops hinv
    unfold stepTrace at h
    cases hs : stepOp st op with
    | none =>
      rw [hs] at h
      exact Option.noConfusion h
    | some stm =>
      rw [hs] at h
      exact ih stm st2 h (fun o ho => hops o (List.mem_cons_of_mem _ ho))
        (summaryCleared_stepOp sid st stm op (hops op (List.mem_cons_self _ _))
          hs hinv)

/-- C9: a session's summary stays empty across any sequence of recorded
mutations that does not include the summary assignment performed at the end
of `analyze_webapp`, and while it is empty `get_session_report` (queried with
a truthy, i.e. non-empty, session id) answers the `Session analysis not
complete` error; a truthy session id absent from the store answers
`Session not found`; once a summary is populated, `get_session_report`
returns exactly the stored report and leaves the state untouched; an
empty-string id is falsy and reroutes to the current session exactly as a
`None` id does; and `analyze_webapp`'s population step is precisely the
summary-assignment op with the report generated from the four analyzers. -/
theorem get_session_report_contract (sid : String) (hsid : sid ≠ "")
    (st st2 : DebuggerState) (trace : List DebugOp)
    (hst : stepTrace st trace = some st2)
    (hops : ∀ op ∈ trace, isSetSummaryFor sid op = false)
    (hinv : summaryCleared sid st) :
    (∀ s, dictGet st2.sessions sid = some s →
      get_session_report st2 (some sid) =
        (.err "Session analysis not complete", st2)) ∧
    (∀ st3 : DebuggerState, dictGet st3.sessions sid = none →
      get_session_report st3 (some sid) = (.err "Session not found", st3)) ∧
    (∀ (st3 : DebuggerState) (s : DebugSession) (r : Report),
      dictGet st3.sessions sid = some s → s.summary = some r →
      get_session_report st3 (some sid) = (.report r, st3)) ∧
    (∀ st3 : DebuggerState,
      get_session_report st3 (some "") = get_session_report st3 none) ∧
    (∀ (st3 : DebuggerState) (now : Nat) (s : DebugSession),
      dictGet st3.sessions sid = some s →
      analyze_webapp_populate st3 sid now =
        stepOp st3 (.setSummary sid (generate_debug_report s now
          (analyze_technical s) (analyze_ux s) (analyze_performance s)
          (analyze_data s)))) := by
  have hcl := summaryCleared_stepTrace sid trace st st2 hst hops hinv
  refine ⟨?_, ?_, ?_, ?_, ?_⟩
  · intro s hs
    have hsum := hcl s hs
    rw [get_session_report_some st2 sid hsid]
    rw [hs]
    dsimp only
    rw [hsum]
  · intro st3 h3
    rw [get_session_report_some st3 sid hsid]
    rw [h3]
  · intro st3 s r h3 hr
    rw [get_session_report_some st3 sid hsid]
    rw [h3]
    dsimp only
    rw [hr]
  · intro st3
    rfl
  · intro st3 now s h3
    unfold analyze_webapp_populate stepOp
    dsimp only
    rw [h3]

def repA : Report :=
  generate_debug_report emptySess 0 techA80 uxA60 perfA90 dataA95

def sessWithReport : DebugSession :=
  { session_id := "a", url := "u", start_time := 0, summary := some repA }

def stWithReport : DebuggerState :=
  { sessions := [("a", sessWithReport)], current := some "a" }

/-- Witness for C9: an absent session id answers `Session not found`, a
populated summary is returned exactly as stored, and the empty-string id
reroutes to the (populated) current session just like `None`. -/
theorem get_session_report_contract_witness :
    get_session_report ({} : DebuggerState) (some "missing") =
        (.err "Session not found", {}) ∧
      get_session_report stWithReport (some "a") =
        (.report repA, stWithReport) ∧
      get_session_report stWithReport (some "") =
        get_session_report stWithReport none :=
  ⟨(get_session_report_contract "missing" (by decide) {} {} [] rfl
      (fun op hop => absurd hop (List.not_mem_nil op))
      (by unfold summaryCleared; intro s hs; exact Option.noConfusion hs)).2.1
    {} rfl,
   (get_session_report_contract "a" (by decide) {} {} [] rfl
      (fun op hop => absurd hop (List.not_mem_nil op))
      (by unfold summaryCleared; intro s hs; exact Option.noConfusion hs)).2.2.1
    stWithReport sessWithReport repA rfl rfl,
   (get_session_report_contract "a" (by decide) {} {} [] rfl
      (fun op hop => absurd hop (List.not_mem_nil op))
      (by unfold summaryCleared; intro s hs; exact Option.noConfusion hs)).2.2.2.1
    stWithReport⟩
